import Mathlib

/-!
Verification development for the tutor_ai repository.

Shallow embedding of the two cores of the repository:
* the assessment pipeline
  (`src/agents/llm_service.py`, `src/backend/app/agents/pre_assessment_agent.py`);
* the websocket message router and connection registry
  (`src/api/main.py`, `src/backend/app/api/v1/endpoints/chat.py`; the two
  routers are line-identical in their routing logic).

Python strings are modelled as Lean `String`; Python `str.lower`, `str.strip`
and substring membership (`in`) are re-implemented over the character list
(`lowerStr`, `pyStrip`, `pyContains`), restricted to ASCII whitespace/case —
every string constant in the repository is ASCII.  Python exceptions are
modelled with `Except`; the outcome of the external model call
(`CodeAgent.run`) is a parameter of type `Except String AgentResult`, since
the model is an external collaborator.
-/

namespace Tutor

/-- Whitespace set of Python `str.strip()` (ASCII part). -/
def pyIsSpace (c : Char) : Bool :=
  c == ' ' || c == '\t' || c == '\n' || c == '\r' || c == '\x0b' || c == '\x0c'

/-- Python `str.strip()`: drop leading and trailing whitespace. -/
def pyStrip (s : String) : String :=
  ⟨((s.data.dropWhile pyIsSpace).reverse.dropWhile pyIsSpace).reverse⟩

/-- Python `str.lower()` (ASCII case mapping). -/
def lowerStr (s : String) : String :=
  ⟨s.data.map Char.toLower⟩

/-- Substring search over character lists: does `pat` occur as a contiguous
infix of the list? -/
def subOf (pat : List Char) : List Char → Bool
  | [] => pat.isEmpty
  | c :: cs => pat.isPrefixOf (c :: cs) || subOf pat cs

/-- Python `pat in s` for strings (substring containment). -/
def pyContains (s pat : String) : Bool :=
  subOf pat.data s.data

/-- Python exceptions that the embedded code can raise. -/
inductive PyError
  | valueError (msg : String)
  | attributeError (msg : String)
deriving Repr, DecidableEq

/-- Python `str(e)` for the exceptions above (the exception message). -/
def pyErrStr : PyError → String
  | .valueError m => m
  | .attributeError m => m

/-- Outcome of `self.agent.run(prompt)` in
`LLMService.generate_assessment_questions`: either a Python list (of the
question strings) or some non-list value.  The call itself may raise, which
is modelled by wrapping this type in `Except String`. -/
inductive AgentResult
  | list (qs : List String)
  | notList
deriving Repr

/-- `LLMService._get_template_questions` (src/agents/llm_service.py,
lines 108-140): keyword-matched canned question lists, first match wins,
each branch returning four questions; the generic branch interpolates the
verbatim learning request into its first question. -/
def get_template_questions (learning_request : String) : List String :=
  let subject := lowerStr learning_request
  if pyContains subject "python" then
    ["What is your current level of programming experience?",
     "Have you used any programming languages before Python?",
     "What specific Python applications interest you (web, data science, automation)?",
     "Do you have any specific Python libraries or frameworks in mind?"]
  else if pyContains subject "machine learning" || pyContains subject "ml" then
    ["What is your background in AI and statistics?",
     "Have you worked with any ML frameworks before?",
     "What specific ML applications interest you?",
     "Are you familiar with Python, as it\x27s commonly used in ML?"]
  else if pyContains subject "web" then
    ["Are you more interested in frontend or backend development?",
     "Have you worked with HTML, CSS, or JavaScript before?",
     "Which web frameworks are you interested in learning?",
     "Do you have experience with any web technologies?"]
  else
    ["What is your current knowledge level in " ++ learning_request ++ "?",
     "What specific aspects of this subject interest you most?",
     "How do you plan to apply this knowledge?",
     "What learning resources have you tried before?"]

/-- `LLMService.generate_assessment_questions` (src/agents/llm_service.py,
lines 75-106).  `run` is the outcome of the `await self.agent.run(prompt)`
call.  The body wraps everything in `try ... except Exception`, so the
function itself never raises: on any exception, or on a result that is not a
list of at least 3 elements, it returns the template questions. -/
def generate_assessment_questions (run : Except String AgentResult)
    (learning_request : String) : List String :=
  match run with
  | .ok (.list result) =>
      if result.length < 3 then get_template_questions learning_request
      else result
  | .ok .notList => get_template_questions learning_request
  | .error _ => get_template_questions learning_request

/-- `PreAssessmentAgent.common_questions`
(src/backend/app/agents/pre_assessment_agent.py, lines 9-12). -/
def common_questions : List String :=
  ["How much time can you dedicate to learning per week?",
   "What is your preferred learning style (hands-on, reading, video tutorials)?"]

/-- `PreAssessmentAgent.get_subject_specific_questions`
(src/backend/app/agents/pre_assessment_agent.py, lines 14-30): raises
`ValueError` on the empty subject, otherwise three canned questions (a
Python branch and a generic branch interpolating the subject). -/
def get_subject_specific_questions (subject : String) :
    Except PyError (List String) :=
  if subject = "" then
    Except.error (PyError.valueError "Subject cannot be empty")
  else if pyContains (lowerStr subject) "python" then
    Except.ok
      ["Have you done any programming before?",
       "What is your goal with learning Python?",
       "Do you have any specific areas of interest (web development, data science, etc.)?"]
  else
    Except.ok
      ["I see you want to learn " ++ subject ++ ". Could you tell me about your current experience level?",
       "What are your main goals for learning this subject?",
       "Do you have any specific areas of interest within this subject?"]

/-- `PreAssessmentAgent.assess`
(src/backend/app/agents/pre_assessment_agent.py, lines 32-57).  `svc` is the
call to `self.llm_service.generate_assessment_questions`, a parameter so
that both the real service and a raising stand-in (as in the unit tests) can
be plugged in.  Empty or whitespace-only requests raise `ValueError` before
the service is consulted; an exception from the service falls back to
`get_subject_specific_questions`; the two common questions are appended to
whichever subject-specific list was obtained. -/
def assess (svc : String → Except String (List String))
    (learning_request : String) : Except PyError (List String) :=
  if learning_request = "" ∨ pyStrip learning_request = "" then
    Except.error (PyError.valueError "Learning request cannot be empty")
  else
    match svc learning_request with
    | Except.ok qs => Except.ok (qs ++ common_questions)
    | Except.error _ =>
      match get_subject_specific_questions learning_request with
      | Except.ok qs => Except.ok (qs ++ common_questions)
      | Except.error e => Except.error e

/-- The real composition: `PreAssessmentAgent.assess` wired to
`LLMService.generate_assessment_questions`, itself driven by the model-call
outcome `run`.  Since `generate_assessment_questions` never raises, the
service parameter always succeeds. -/
def assessWithLLM (run : Except String AgentResult)
    (learning_request : String) : Except PyError (List String) :=
  assess (fun r => Except.ok (generate_assessment_questions run r)) learning_request

/-- An LLM service whose call raises, as in
`test_llm_failure_fallback` (mocked `side_effect = Exception(...)`). -/
def llmDown : String → Except String (List String) :=
  fun _ => Except.error "LLM service error"

/-- JSON values as decoded by `json.loads` (numbers restricted to integers;
no claim exercises non-integral numbers). -/
inductive JValue
  | null
  | bool (b : Bool)
  | num (n : Int)
  | str (s : String)
  | arr (xs : List JValue)
  | obj (fields : List (String × JValue))

/-- Python dictionary access `d.get(k)` / membership `k in d` on a decoded
object, modelled over the field association list. -/
def getField (fs : List (String × JValue)) (k : String) : Option JValue :=
  match fs with
  | [] => none
  | (k2, v) :: rest => if k2 = k then some v else getField rest k

mutual

/-- Python `repr` of a decoded JSON value (string escaping inside `repr` of
a string is not modelled; no claim exercises it). -/
def pyRepr : JValue → String
  | .null => "None"
  | .bool true => "True"
  | .bool false => "False"
  | .num n => toString n
  | .str s => "\x27" ++ s ++ "\x27"
  | .arr xs => "[" ++ pyReprSeq xs ++ "]"
  | .obj fs => "\x7b" ++ pyReprFields fs ++ "\x7d"

/-- Comma-separated `repr`s of list elements. -/
def pyReprSeq : List JValue → String
  | [] => ""
  | [x] => pyRepr x
  | x :: y :: xs => pyRepr x ++ ", " ++ pyReprSeq (y :: xs)

/-- Comma-separated `repr`s of dictionary items. -/
def pyReprFields : List (String × JValue) → String
  | [] => ""
  | [(k, v)] => "\x27" ++ k ++ "\x27: " ++ pyRepr v
  | (k, v) :: f :: fs =>
      "\x27" ++ k ++ "\x27: " ++ pyRepr v ++ ", " ++ pyReprFields (f :: fs)

end

/-- Python `str(x)` applied to `message.get("type")` inside the f-string
`f"Invalid message type: ..."`: an absent key (`None`) and JSON `null` both
render as `None`; strings render without quotes; containers via `repr`. -/
def pyStr : Option JValue → String
  | none => "None"
  | some (.str s) => s
  | some v => pyRepr v

/-- Python truthiness of a decoded JSON value (`not x`). -/
def pyFalsy : JValue → Bool
  | .null => true
  | .bool b => !b
  | .num n => n == 0
  | .str s => s == ""
  | .arr xs => xs.isEmpty
  | .obj fs => fs.isEmpty

/-- Python type name, for the `AttributeError` text raised by
`learning_request.strip()` on a non-string. -/
def pyTypeName : JValue → String
  | .null => "NoneType"
  | .bool _ => "bool"
  | .num _ => "int"
  | .str _ => "str"
  | .arr _ => "list"
  | .obj _ => "dict"

/-- `agent.assess(message.get("content"))` as called by the websocket
endpoint: the `content` value is passed unconverted, so a falsy value raises
`ValueError` from the emptiness check, a truthy non-string raises
`AttributeError` from `.strip()`, and a string goes through `assess`. -/
def assessJ (svc : String → Except String (List String)) (v : JValue) :
    Except PyError (List String) :=
  match v with
  | .str s => assess svc s
  | t =>
    if pyFalsy t then
      Except.error (PyError.valueError "Learning request cannot be empty")
    else
      Except.error (PyError.attributeError
        ("\x27" ++ pyTypeName t ++ "\x27 object has no attribute \x27strip\x27"))

/-- Error envelope `{"type": "error", "message": ...}`. -/
def errEnvelopeMsg (m : String) : JValue :=
  JValue.obj [("type", JValue.str "error"), ("message", JValue.str m)]

/-- Error envelope `{"type": "error", "content": ...}` (the shape built in
the `except Exception` branch of the endpoint). -/
def errEnvelopeContent (m : String) : JValue :=
  JValue.obj [("type", JValue.str "error"), ("content", JValue.str m)]

/-- Success envelope
`{"type": "assessment", "content": {"questions": [...]}}`. -/
def assessmentEnvelope (qs : List String) : JValue :=
  JValue.obj [("type", JValue.str "assessment"),
    ("content", JValue.obj [("questions", JValue.arr (qs.map JValue.str))])]

/-- The dispatch test `message.get("type") == "start_learning"`. -/
def isStartLearning : Option JValue → Bool
  | some (.str t) => t == "start_learning"
  | _ => false

/-- One iteration of the receive loop of `websocket_endpoint`
(src/api/main.py lines 50-105, src/backend/app/api/v1/endpoints/chat.py
lines 60-115): the outbound envelope produced for one inbound frame.
`decoded` is the outcome of `json.loads` (`none` = `JSONDecodeError`);
`svc` is the LLM service behind the freshly constructed
`PreAssessmentAgent`.  Every branch of the Python code ends by sending one
envelope and continuing the loop. -/
def handleFrame (svc : String → Except String (List String))
    (decoded : Option JValue) : JValue :=
  match decoded with
  | none => errEnvelopeMsg "Invalid JSON format"
  | some m =>
    match m with
    | .obj fs =>
      if isStartLearning (getField fs "type") then
        match getField fs "content" with
        | none => errEnvelopeMsg "Missing required field: content"
        | some c =>
          match assessJ svc c with
          | Except.ok qs => assessmentEnvelope qs
          | Except.error e => errEnvelopeContent (pyErrStr e)
      else
        errEnvelopeMsg ("Invalid message type: " ++ pyStr (getField fs "type"))
    | _ => errEnvelopeMsg "Message must be a JSON object"

/-- `ConnectionManager.connect` (after `websocket.accept()`):
`self.active_connections.append(websocket)`.  Sessions are identified by
opaque ids. -/
def connect (reg : List Nat) (sid : Nat) : List Nat :=
  reg ++ [sid]

/-- `ConnectionManager.disconnect`: `self.active_connections.remove(websocket)`.
Python `list.remove` deletes the first occurrence and raises `ValueError`
when the element is absent. -/
def disconnect (reg : List Nat) (sid : Nat) : Except PyError (List Nat) :=
  if sid ∈ reg then Except.ok (reg.erase sid)
  else Except.error (PyError.valueError "list.remove(x): x not in list")

/-- Transport-level events driving one session of `websocket_endpoint`:
a received frame (already decoded), a `WebSocketDisconnect` raised by the
channel, or any other exception raised by channel I/O (e.g. a failing
`send_text` on a broken connection). -/
inductive Event
  | frame (decoded : Option JValue)
  | clientDisconnect
  | transportError

/-- The receive loop of `websocket_endpoint` after the connection has been
registered: processes frames in order, each producing one outbound
envelope; a `WebSocketDisconnect` is caught and runs
`manager.disconnect` (whose own failure would propagate, leaving the
registry as it was); any other exception propagates out of the endpoint
uncaught, so no cleanup runs.  Returns the final registry and the sent
envelopes. -/
def runLoop (svc : String → Except String (List String)) (reg : List Nat)
    (sid : Nat) : List Event → List Nat × List JValue
  | [] => (reg, [])
  | Event.frame d :: rest =>
    let p := runLoop svc reg sid rest
    (p.1, handleFrame svc d :: p.2)
  | Event.clientDisconnect :: _ =>
    (match disconnect reg sid with
     | Except.ok r => r
     | Except.error _ => reg, [])
  | Event.transportError :: _ => (reg, [])

/-- A whole session of `websocket_endpoint`: `manager.connect` (accept and
register), then the receive loop. -/
def runSession (svc : String → Except String (List String)) (reg : List Nat)
    (sid : Nat) (events : List Event) : List Nat × List JValue :=
  runLoop svc (connect reg sid) sid events

/-- Characters the specification forbids as the first character of a
question (enumeration markers). -/
def badStart (c : Char) : Bool :=
  c.isDigit || c == '.' || c == '-' || c == '*'

/-- A question in the shape the specification promises: non-empty, ending
in a question mark, not starting with an enumeration marker. -/
def wellFormedQ (q : String) : Bool :=
  (q.data.getLast? == some '?') &&
    (match q.data.head? with
     | some c => !(badStart c)
     | none => false)

/-- Whether `generate_assessment_questions` falls back to the template
questions for the given model-call outcome. -/
def usedFallback : Except String AgentResult → Bool
  | Except.ok (AgentResult.list l) => decide (l.length < 3)
  | _ => true

/-! ## Helper lemmas -/

/-- Stripping the empty string yields the empty string. -/
theorem pyStrip_empty : pyStrip "" = "" := rfl

/-- On a request that is not whitespace-only, `assess` proceeds past its
validation check to the service call and fallback logic. -/
theorem assess_not_empty (svc : String → Except String (List String)) (lr : String)
    (h : pyStrip lr ≠ "") :
    assess svc lr =
      match svc lr with
      | Except.ok qs => Except.ok (qs ++ common_questions)
      | Except.error _ =>
        match get_subject_specific_questions lr with
        | Except.ok qs => Except.ok (qs ++ common_questions)
        | Except.error e => Except.error e := by
  have hn : ¬(lr = "" ∨ pyStrip lr = "") := by
    rintro (h1 | h2)
    · subst h1; exact h rfl
    · exact h h2
  unfold assess
  rw [if_neg hn]

/-- Every branch of the template generator returns exactly four questions. -/
theorem get_template_questions_length (lr : String) :
    (get_template_questions lr).length = 4 := by
  unfold get_template_questions
  dsimp only
  split
  · rfl
  · split
    · rfl
    · split
      · rfl
      · rfl

/-- A question built as `prefix-text ++ interpolated ++ "?"` is well formed
whenever the prefix text opens with a non-marker character. -/
theorem wellFormedQ_affix (pre mid : String) (c : Char) (hc : pre.data.head? = some c)
    (hb : badStart c = false) : wellFormedQ (pre ++ mid ++ "?") = true := by
  have hq : ("?" : String).data = ['?'] := rfl
  unfold wellFormedQ
  simp only [String.data_append, hq, List.head?_append, List.getLast?_append, hc]
  simp [List.getLast?, hb]

/-- All template questions, with the common questions appended, are well
formed, for every learning request (the generic branch interpolates the
request in the middle of its first question only). -/
theorem get_template_questions_wf (lr : String) :
    ((get_template_questions lr) ++ common_questions).all wellFormedQ = true := by
  unfold get_template_questions
  dsimp only
  split
  · decide
  · split
    · decide
    · split
      · decide
      · simp only [common_questions, List.cons_append, List.nil_append, List.all_cons,
          Bool.and_eq_true]
        refine ⟨?_, ?_⟩
        · exact wellFormedQ_affix "What is your current knowledge level in " lr 'W'
            (by decide) (by decide)
        · decide

/-- The generator always returns at least three questions: the model result
is only accepted at length three or more, and every template branch has
four. -/
theorem generate_length (run : Except String AgentResult) (lr : String) :
    3 ≤ (generate_assessment_questions run lr).length := by
  cases run with
  | error e =>
    simp only [generate_assessment_questions]
    rw [get_template_questions_length]
    omega
  | ok r =>
    cases r with
    | notList =>
      simp only [generate_assessment_questions]
      rw [get_template_questions_length]
      omega
    | list l =>
      simp only [generate_assessment_questions]
      split
      · rw [get_template_questions_length]; omega
      · next hge => omega

/-- On every fallback-triggering outcome the generator returns exactly the
template questions. -/
theorem generate_fallback_eq (run : Except String AgentResult) (lr : String)
    (h : usedFallback run = true) :
    generate_assessment_questions run lr = get_template_questions lr := by
  cases run with
  | error e => rfl
  | ok r =>
    cases r with
    | notList => rfl
    | list l =>
      simp only [usedFallback, decide_eq_true_eq] at h
      simp only [generate_assessment_questions, if_pos h]

/-- Frame events never touch the connection registry; only the terminal
event decides its final state. -/
theorem runLoop_frames (svc : String → Except String (List String)) (reg : List Nat)
    (sid : Nat) (ds : List (Option JValue)) (tail : List Event) :
    (runLoop svc reg sid (ds.map Event.frame ++ tail)).1 = (runLoop svc reg sid tail).1 := by
  induction ds with
  | nil => rfl
  | cons d ds ih =>
    simp only [List.map_cons, List.cons_append, runLoop]
    exact ih

/-! ## Claim C1 -/

/-- Claim C1, as stated, is false: when the model call throws, the service
level fallback for "I want to learn Machine Learning" is the
machine-learning template of `_get_template_questions`, which has FOUR
questions, not three — the full result has six elements where the claim
demands five. -/
theorem C1_counterexample :
    assessWithLLM (Except.error "model is down") "I want to learn Machine Learning"
      = Except.ok
          ["What is your background in AI and statistics?",
           "Have you worked with any ML frameworks before?",
           "What specific ML applications interest you?",
           "Are you familiar with Python, as it\x27s commonly used in ML?",
           "How much time can you dedicate to learning per week?",
           "What is your preferred learning style (hands-on, reading, video tutorials)?"]
  ∧ (["What is your background in AI and statistics?",
      "Have you worked with any ML frameworks before?",
      "What specific ML applications interest you?",
      "Are you familiar with Python, as it\x27s commonly used in ML?",
      "How much time can you dedicate to learning per week?",
      "What is your preferred learning style (hands-on, reading, video tutorials)?"]
        : List String).length = 6 :=
  ⟨rfl, rfl⟩

/-- Claim C1 (amended): if the model call throws on every call,
`assess("I want to learn Machine Learning")` deterministically returns the
FOUR fixed ML template questions followed by exactly the two common
questions, in that order. -/
theorem C1_assess_ml_fallback (e : String) :
    assessWithLLM (Except.error e) "I want to learn Machine Learning"
      = Except.ok
          ["What is your background in AI and statistics?",
           "Have you worked with any ML frameworks before?",
           "What specific ML applications interest you?",
           "Are you familiar with Python, as it\x27s commonly used in ML?",
           "How much time can you dedicate to learning per week?",
           "What is your preferred learning style (hands-on, reading, video tutorials)?"] :=
  rfl

/-! ## Claim C2 -/

/-- Claim C2, as stated, is false: when the model call succeeds with a list
of at least three strings, `assess` returns them verbatim with no format
check, so elements need not end in a question mark.  Here the subject
"math" has a non-empty trimmed form, yet the first returned element is
"alpha". -/
theorem C2_counterexample :
    pyStrip "math" ≠ ""
  ∧ assessWithLLM (Except.ok (AgentResult.list ["alpha", "beta", "gamma"])) "math"
      = Except.ok ["alpha", "beta", "gamma",
          "How much time can you dedicate to learning per week?",
          "What is your preferred learning style (hands-on, reading, video tutorials)?"]
  ∧ wellFormedQ "alpha" = false :=
  ⟨by decide, rfl, by decide⟩

/-- Claim C2 (amended): for every subject with a non-empty trimmed form,
`assess` returns the subject-specific questions followed by the two common
questions, of total length at least five with at least three
subject-specific elements; the well-formedness part (every element ends
with a question mark and starts with no enumeration marker) holds whenever
the template fallback was used, but an accepted model result is passed
through verbatim. -/
theorem C2_assess_shape (run : Except String AgentResult) (lr : String)
    (h : pyStrip lr ≠ "") :
    assessWithLLM run lr
      = Except.ok (generate_assessment_questions run lr ++ common_questions)
  ∧ 3 ≤ (generate_assessment_questions run lr).length
  ∧ 5 ≤ (generate_assessment_questions run lr ++ common_questions).length
  ∧ (usedFallback run = true →
      (generate_assessment_questions run lr ++ common_questions).all wellFormedQ = true) := by
  refine ⟨?_, generate_length run lr, ?_, ?_⟩
  · unfold assessWithLLM
    rw [assess_not_empty _ _ h]
  · have h2 := generate_length run lr
    simp only [List.length_append, common_questions, List.length_cons, List.length_nil]
    omega
  · intro hf
    rw [generate_fallback_eq run lr hf]
    exact get_template_questions_wf lr

/-- Witness for C2 at the concrete subject "chemistry" with a failing model
call. -/
theorem C2_assess_shape_witness :
    pyStrip "chemistry" ≠ ""
  ∧ (assessWithLLM (Except.error "e") "chemistry"
      = Except.ok (generate_assessment_questions (Except.error "e") "chemistry"
          ++ common_questions)
    ∧ 3 ≤ (generate_assessment_questions (Except.error "e") "chemistry").length
    ∧ 5 ≤ (generate_assessment_questions (Except.error "e") "chemistry"
          ++ common_questions).length
    ∧ (usedFallback (Except.error ("e" : String)) = true →
        (generate_assessment_questions (Except.error "e") "chemistry"
          ++ common_questions).all wellFormedQ = true)) :=
  ⟨by decide, C2_assess_shape (Except.error "e") "chemistry" (by decide)⟩

/-! ## Claim C3 -/

/-- Claim C3: a successful model result with fewer than three elements is
discarded entirely; the final question set is exactly the template
generator output for the same subject, followed by the common questions —
never a merge of the two sources. -/
theorem C3_discard_short_result (l : List String) (lr : String) (hlen : l.length < 3)
    (h : pyStrip lr ≠ "") :
    assessWithLLM (Except.ok (AgentResult.list l)) lr
      = Except.ok (get_template_questions lr ++ common_questions) := by
  unfold assessWithLLM
  rw [assess_not_empty _ _ h]
  simp only [generate_assessment_questions, if_pos hlen]

/-- Witness for C3 with a two-element well-formed model result. -/
theorem C3_discard_short_result_witness :
    (["Q1?", "Q2?"] : List String).length < 3
  ∧ pyStrip "I want to learn Machine Learning" ≠ ""
  ∧ assessWithLLM (Except.ok (AgentResult.list ["Q1?", "Q2?"])) "I want to learn Machine Learning"
      = Except.ok (get_template_questions "I want to learn Machine Learning" ++ common_questions) :=
  ⟨by decide, by decide,
    C3_discard_short_result ["Q1?", "Q2?"] "I want to learn Machine Learning"
      (by decide) (by decide)⟩

/-! ## Claim C4 -/

/-- Claim C4, as stated, is false: an error raised by the model call does
NOT propagate — `generate_assessment_questions` catches every exception and
returns the template questions, here the four Python templates. -/
theorem C4_counterexample :
    generate_assessment_questions (Except.error "API Error") "I want to learn Python"
      = ["What is your current level of programming experience?",
         "Have you used any programming languages before Python?",
         "What specific Python applications interest you (web, data science, automation)?",
         "Do you have any specific Python libraries or frameworks in mind?"] :=
  rfl

/-- Claim C4 (amended): every error from the model call is caught inside
the model-backed generator itself, which returns the deterministic template
questions for the same subject (always four of them); nothing propagates to
the orchestrator and there is no retry (the single `run` outcome fully
determines the result). -/
theorem C4_error_swallowed (e : String) (lr : String) :
    generate_assessment_questions (Except.error e) lr = get_template_questions lr
  ∧ (get_template_questions lr).length = 4 :=
  ⟨rfl, get_template_questions_length lr⟩

/-! ## Claim C5 -/

/-- Claim C5, as stated, is false: the generator performs no line-based
parsing at all — a model result that is a list of at least three strings is
returned verbatim, keeping enumeration prefixes that the claimed parser
would have stripped. -/
theorem C5_counterexample :
    generate_assessment_questions
        (Except.ok (AgentResult.list
          ["1. What is your background?", "2. Have you used ML before?",
           "3. What interests you?"]))
        "I want to learn Machine Learning"
      = ["1. What is your background?", "2. Have you used ML before?",
         "3. What interests you?"]
  ∧ wellFormedQ "1. What is your background?" = false :=
  ⟨rfl, by decide⟩

/-- Claim C5 (amended): the model-backed generator does not parse free-form
text; it returns a list-valued model result of length at least three
verbatim, and on any other outcome (shorter list, non-list value, or
exception) it returns the deterministic template questions for the same
subject. -/
theorem C5_no_parsing (l : List String) (e : String) (lr : String) :
    (3 ≤ l.length →
        generate_assessment_questions (Except.ok (AgentResult.list l)) lr = l)
  ∧ (l.length < 3 →
        generate_assessment_questions (Except.ok (AgentResult.list l)) lr
          = get_template_questions lr)
  ∧ generate_assessment_questions (Except.error e) lr = get_template_questions lr
  ∧ generate_assessment_questions (Except.ok AgentResult.notList) lr
      = get_template_questions lr := by
  refine ⟨fun h3 => ?_, fun hlt => ?_, rfl, rfl⟩
  · simp only [generate_assessment_questions]
    rw [if_neg (by omega)]
  · simp only [generate_assessment_questions, if_pos hlt]

/-- Witness for C5 on a three-element list that keeps its numbering. -/
theorem C5_no_parsing_witness :
    3 ≤ (["1. A?", "2. B?", "3. C?"] : List String).length
  ∧ generate_assessment_questions
      (Except.ok (AgentResult.list ["1. A?", "2. B?", "3. C?"])) "ml"
      = ["1. A?", "2. B?", "3. C?"] :=
  ⟨by decide, (C5_no_parsing ["1. A?", "2. B?", "3. C?"] "e" "ml").1 (by decide)⟩

/-! ## Claim C6 -/

/-- Claim C6: `assess("")` and `assess("   ")` — and in general every
request whose stripped form is empty — raise
`ValueError("Learning request cannot be empty")`.  The conclusion holds for
EVERY service `svc`, i.e. the failure is decided before any question
generator is invoked (the result does not depend on the generator at
all). -/
theorem C6_empty_subject_rejected :
    (∀ svc : String → Except String (List String),
        assess svc "" = Except.error (PyError.valueError "Learning request cannot be empty"))
  ∧ (∀ svc : String → Except String (List String),
        assess svc "   " = Except.error (PyError.valueError "Learning request cannot be empty"))
  ∧ (∀ (svc : String → Except String (List String)) (s : String), pyStrip s = "" →
        assess svc s = Except.error (PyError.valueError "Learning request cannot be empty")) := by
  refine ⟨fun svc => rfl, fun svc => rfl, fun svc s h => ?_⟩
  unfold assess
  rw [if_pos (Or.inr h)]

/-- Witness for C6 on a two-space request against the raising service. -/
theorem C6_empty_subject_rejected_witness :
    pyStrip "  " = ""
  ∧ assess llmDown "  "
      = Except.error (PyError.valueError "Learning request cannot be empty") :=
  ⟨rfl, C6_empty_subject_rejected.2.2 llmDown "  " rfl⟩

/-! ## Claim C7 -/

/-- Claim C7, as stated, is false: the validation failure raised by the
orchestrator is caught by the endpoint's `except Exception` branch, which
builds its envelope with field name `content`, not `message` — the reason
string is not under `message` on that path. -/
theorem C7_counterexample :
    handleFrame llmDown
        (some (JValue.obj [("type", JValue.str "start_learning"), ("content", JValue.str "")]))
      = errEnvelopeContent "Learning request cannot be empty"
  ∧ errEnvelopeContent "Learning request cannot be empty"
      = JValue.obj [("type", JValue.str "error"),
          ("content", JValue.str "Learning request cannot be empty")]
  ∧ getField [("type", JValue.str "error"),
      ("content", JValue.str "Learning request cannot be empty")] "message" = none :=
  ⟨rfl, rfl, rfl⟩

/-- Claim C7 (amended): the four protocol error paths (decode failure,
shape failure, missing `content` field, unknown `type`) all carry their
reason under the field name `message`; the orchestrator-exception path —
which includes the validation failure for an empty subject — instead
carries it under the field name `content`. -/
theorem C7_error_field_names (svc : String → Except String (List String))
    (fs : List (String × JValue)) (xs : List JValue) (n : Int) (s : String) :
    handleFrame svc none = errEnvelopeMsg "Invalid JSON format"
  ∧ handleFrame svc (some (JValue.arr xs)) = errEnvelopeMsg "Message must be a JSON object"
  ∧ handleFrame svc (some (JValue.num n)) = errEnvelopeMsg "Message must be a JSON object"
  ∧ (getField fs "type" = some (JValue.str "start_learning") →
      getField fs "content" = none →
        handleFrame svc (some (JValue.obj fs)) = errEnvelopeMsg "Missing required field: content")
  ∧ (isStartLearning (getField fs "type") = false →
      handleFrame svc (some (JValue.obj fs))
        = errEnvelopeMsg ("Invalid message type: " ++ pyStr (getField fs "type")))
  ∧ (getField fs "type" = some (JValue.str "start_learning") →
      getField fs "content" = some (JValue.str s) → pyStrip s = "" →
        handleFrame svc (some (JValue.obj fs))
          = errEnvelopeContent "Learning request cannot be empty") := by
  refine ⟨rfl, rfl, rfl, fun ht hc => ?_, fun hf => ?_, fun ht hcs hs => ?_⟩
  · simp only [handleFrame, ht, hc, isStartLearning]
    rfl
  · simp only [handleFrame, hf]
    rfl
  · simp only [handleFrame, ht, hcs, isStartLearning, assessJ]
    have h1 : assess svc s
        = Except.error (PyError.valueError "Learning request cannot be empty") := by
      unfold assess
      rw [if_pos (Or.inr hs)]
    simp only [beq_self_eq_true, if_pos, h1]
    rfl

/-- Witness for C7 on a whitespace-only subject frame. -/
theorem C7_error_field_names_witness :
    getField [("type", JValue.str "start_learning"), ("content", JValue.str " ")] "type"
      = some (JValue.str "start_learning")
  ∧ pyStrip " " = ""
  ∧ handleFrame llmDown
      (some (JValue.obj [("type", JValue.str "start_learning"), ("content", JValue.str " ")]))
      = errEnvelopeContent "Learning request cannot be empty" :=
  ⟨rfl, rfl,
    (C7_error_field_names llmDown
      [("type", JValue.str "start_learning"), ("content", JValue.str " ")]
      [] 0 " ").2.2.2.2.2 rfl rfl rfl⟩

/-! ## Claim C8 -/

/-- Claim C8, as stated, is false: a session that ends with a transport
failure other than `WebSocketDisconnect` (for example a failing
`send_text`) leaves its entry in the registry, because the endpoint only
catches `WebSocketDisconnect` — here the session is over yet the registry
still holds it, so registry size (1) exceeds live connections (0). -/
theorem C8_counterexample :
    runSession llmDown [] 0 [Event.transportError] = ([0], [])
  ∧ ([0] : List Nat) ≠ [] :=
  ⟨rfl, by decide⟩

/-- Claim C8 (amended): every accepted connection is appended to the
registry, and a session ending in a client disconnect
(`WebSocketDisconnect`) restores the registry exactly; but a session ending
in any other read/write transport failure leaves its stale entry behind
(the registry keeps the session id after the session is gone). -/
theorem C8_registry_cleanup (svc : String → Except String (List String)) (reg : List Nat)
    (sid : Nat) (ds : List (Option JValue)) (h : sid ∉ reg) :
    (runSession svc reg sid (ds.map Event.frame ++ [Event.clientDisconnect])).1 = reg
  ∧ (runSession svc reg sid (ds.map Event.frame ++ [Event.transportError])).1
      = reg ++ [sid] := by
  constructor
  · unfold runSession
    rw [runLoop_frames]
    have hm : sid ∈ connect reg sid := by simp [connect]
    have hd : disconnect (connect reg sid) sid
        = Except.ok ((connect reg sid).erase sid) := by
      unfold disconnect
      rw [if_pos hm]
    simp only [runLoop, hd]
    show (connect reg sid).erase sid = reg
    unfold connect
    rw [List.erase_append_right _ h, List.erase_cons_head, List.append_nil]
  · unfold runSession
    rw [runLoop_frames]
    rfl

/-- Witness for C8: one frame then a disconnect cleans up; one frame then a
transport error leaks the entry. -/
theorem C8_registry_cleanup_witness :
    (0 : Nat) ∉ ([] : List Nat)
  ∧ ((runSession llmDown [] 0 (([none] : List (Option JValue)).map Event.frame
        ++ [Event.clientDisconnect])).1 = []
    ∧ (runSession llmDown [] 0 (([none] : List (Option JValue)).map Event.frame
        ++ [Event.transportError])).1 = [] ++ [0]) :=
  ⟨by decide, C8_registry_cleanup llmDown [] 0 [none] (by decide)⟩

/-! ## Claim C9 -/

/-- Claim C9, as stated, is false: `disconnect` is `list.remove`, which
raises `ValueError` when the session is absent — so the second call after a
successful removal raises instead of being a no-op. -/
theorem C9_counterexample :
    connect [] 0 = [0]
  ∧ disconnect [0] 0 = Except.ok []
  ∧ disconnect [] 0 = Except.error (PyError.valueError "list.remove(x): x not in list") :=
  ⟨rfl, rfl, rfl⟩

/-- Claim C9 (amended): `disconnect` removes the first occurrence of a
present session and raises `ValueError` for an absent one; it is therefore
not idempotent, though the failing call does leave the registry
unchanged. -/
theorem C9_disconnect_behavior (reg : List Nat) (sid : Nat) :
    (sid ∈ reg → disconnect reg sid = Except.ok (reg.erase sid))
  ∧ (sid ∉ reg → disconnect reg sid
        = Except.error (PyError.valueError "list.remove(x): x not in list")) :=
  ⟨fun h => by unfold disconnect; rw [if_pos h],
   fun h => by unfold disconnect; rw [if_neg h]⟩

/-- Witness for C9 on the singleton and the empty registry. -/
theorem C9_disconnect_behavior_witness :
    ((0 : Nat) ∈ ([0] : List Nat) ∧ disconnect [0] 0 = Except.ok (([0] : List Nat).erase 0))
  ∧ ((0 : Nat) ∉ ([] : List Nat)
      ∧ disconnect [] 0 = Except.error (PyError.valueError "list.remove(x): x not in list")) :=
  ⟨⟨by decide, (C9_disconnect_behavior [0] 0).1 (by decide)⟩,
   ⟨by decide, (C9_disconnect_behavior [] 0).2 (by decide)⟩⟩

/-! ## Claim C10 -/

/-- Claim C10: an inbound object with no `type` field is routed to the
unknown-type branch — `message.get("type")` is `None`, rendered as the
literal text `None` in the error message — and the receive loop keeps
processing subsequent events. -/
theorem C10_missing_type_field (svc : String → Except String (List String))
    (fs : List (String × JValue)) (reg : List Nat) (sid : Nat) (rest : List Event)
    (h : getField fs "type" = none) :
    handleFrame svc (some (JValue.obj fs)) = errEnvelopeMsg "Invalid message type: None"
  ∧ runLoop svc reg sid (Event.frame (some (JValue.obj fs)) :: rest)
      = ((runLoop svc reg sid rest).1,
         errEnvelopeMsg "Invalid message type: None" :: (runLoop svc reg sid rest).2) := by
  have h1 : handleFrame svc (some (JValue.obj fs))
      = errEnvelopeMsg "Invalid message type: None" := by
    simp only [handleFrame, h, isStartLearning]
    rfl
  refine ⟨h1, ?_⟩
  simp only [runLoop, h1]

/-- Witness for C10 on a frame that only has a `content` field. -/
theorem C10_missing_type_field_witness :
    getField [("content", JValue.str "hello")] "type" = none
  ∧ (handleFrame llmDown (some (JValue.obj [("content", JValue.str "hello")]))
       = errEnvelopeMsg "Invalid message type: None"
    ∧ runLoop llmDown [] 0 [Event.frame (some (JValue.obj [("content", JValue.str "hello")]))]
       = ((runLoop llmDown [] 0 []).1,
          errEnvelopeMsg "Invalid message type: None" :: (runLoop llmDown [] 0 []).2)) :=
  ⟨rfl, C10_missing_type_field llmDown [("content", JValue.str "hello")] [] 0 [] rfl⟩

end Tutor
